import Mathlib

/-!
Verification of the totals-projection pipeline of the `model-game-totals`
repository.  The development shallowly embeds the per-row behaviour of the
pandas/sklearn pipeline in `scripts/04_analysis_utils.py`,
`scripts/02_build_model.py`, `scripts/03_project_playoffs.py`,
`scripts/04_enhanced_model.py`, `scripts/05_historical_model.py` and
`scripts/06_team_specific_model.py`.  Real values are modelled as rationals;
pandas missing values (NaN produced by `how="left"` merges on absent keys)
are modelled as `Option` with `none` for NaN, and a dataframe row is an
association list from column name to value, listed in the order the source
constructs the columns.
-/

/-- One row of `team_epa_<season>.csv` (all metric fields present),
as merged by `build_training_data` / `project_week`. -/
structure TeamEpa where
  off_epa_per_play : ℚ
  off_pass_epa : ℚ
  off_rush_epa : ℚ
  def_epa_per_play : ℚ
  def_pass_epa : ℚ
  def_rush_epa : ℚ
deriving DecidableEq

/-- One row of `team_points_<season>.csv` (all metric fields present). -/
structure TeamPoints where
  points_per_play : ℚ
  plays_per_game : ℚ
deriving DecidableEq

/-- The literal `DEFAULT_FEATURES` list of `scripts/04_analysis_utils.py`
(lines 14-21). -/
def DEFAULT_FEATURES : List String :=
  ["home_off_epa", "home_def_epa", "home_off_pass_epa", "home_off_rush_epa",
   "away_off_epa", "away_def_epa", "away_off_pass_epa", "away_off_rush_epa",
   "home_points_per_play", "away_points_per_play",
   "home_plays_per_game", "away_plays_per_game",
   "off_epa_diff", "def_epa_diff",
   "home_matchup_edge", "away_matchup_edge"]

/-- The literal `feature_columns` list of `scripts/02_build_model.py`
(lines 112-119), used when fitting the persisted model. -/
def feature_columns_02 : List String :=
  ["home_off_epa", "home_def_epa", "home_off_pass_epa", "home_off_rush_epa",
   "away_off_epa", "away_def_epa", "away_off_pass_epa", "away_off_rush_epa",
   "home_points_per_play", "away_points_per_play",
   "home_plays_per_game", "away_plays_per_game",
   "off_epa_diff", "def_epa_diff",
   "home_matchup_edge", "away_matchup_edge"]

/-- Per-row (one game) embedding of the numeric columns produced by
`build_training_data` (`scripts/04_analysis_utils.py` lines 24-103): the four
left merges rename the team metric columns under `home_`/`away_` prefixes and
the derived columns of lines 96-101 are appended.  Identifier columns
(`game_id`, `week`, team names) are carried through unchanged by the source
and are not numeric features, so they are omitted here. -/
def build_training_data_row (h a : TeamEpa) (hp ap : TeamPoints)
    (home_score away_score : ℚ) : List (String × ℚ) :=
  [("home_score", home_score), ("away_score", away_score),
   ("home_off_epa", h.off_epa_per_play), ("home_off_pass_epa", h.off_pass_epa),
   ("home_off_rush_epa", h.off_rush_epa), ("home_def_epa", h.def_epa_per_play),
   ("home_def_pass_epa", h.def_pass_epa), ("home_def_rush_epa", h.def_rush_epa),
   ("away_off_epa", a.off_epa_per_play), ("away_off_pass_epa", a.off_pass_epa),
   ("away_off_rush_epa", a.off_rush_epa), ("away_def_epa", a.def_epa_per_play),
   ("away_def_pass_epa", a.def_pass_epa), ("away_def_rush_epa", a.def_rush_epa),
   ("home_points_per_play", hp.points_per_play), ("home_plays_per_game", hp.plays_per_game),
   ("away_points_per_play", ap.points_per_play), ("away_plays_per_game", ap.plays_per_game),
   ("total_points", home_score + away_score),
   ("off_epa_diff", h.off_epa_per_play - a.off_epa_per_play),
   ("def_epa_diff", h.def_epa_per_play - a.def_epa_per_play),
   ("ppp_diff", hp.points_per_play - ap.points_per_play),
   ("home_matchup_edge", h.off_epa_per_play - a.def_epa_per_play),
   ("away_matchup_edge", a.off_epa_per_play - h.def_epa_per_play)]

/-- Per-row (one upcoming game) embedding of the numeric columns produced by
the feature-building part of `project_week` (`scripts/04_analysis_utils.py`
lines 163-230): the vegas-lines merge contributes `vegas_total`, the four team
metric merges contribute the prefixed columns, and lines 226-230 append the
derived columns with the same formulas as training. -/
def project_week_row (h a : TeamEpa) (hp ap : TeamPoints)
    (vegas_total : ℚ) : List (String × ℚ) :=
  [("vegas_total", vegas_total),
   ("home_off_epa", h.off_epa_per_play), ("home_off_pass_epa", h.off_pass_epa),
   ("home_off_rush_epa", h.off_rush_epa), ("home_def_epa", h.def_epa_per_play),
   ("home_def_pass_epa", h.def_pass_epa), ("home_def_rush_epa", h.def_rush_epa),
   ("away_off_epa", a.off_epa_per_play), ("away_off_pass_epa", a.off_pass_epa),
   ("away_off_rush_epa", a.off_rush_epa), ("away_def_epa", a.def_epa_per_play),
   ("away_def_pass_epa", a.def_pass_epa), ("away_def_rush_epa", a.def_rush_epa),
   ("home_points_per_play", hp.points_per_play), ("home_plays_per_game", hp.plays_per_game),
   ("away_points_per_play", ap.points_per_play), ("away_plays_per_game", ap.plays_per_game),
   ("off_epa_diff", h.off_epa_per_play - a.off_epa_per_play),
   ("def_epa_diff", h.def_epa_per_play - a.def_epa_per_play),
   ("ppp_diff", hp.points_per_play - ap.points_per_play),
   ("home_matchup_edge", h.off_epa_per_play - a.def_epa_per_play),
   ("away_matchup_edge", a.off_epa_per_play - h.def_epa_per_play)]

/-- The feature columns emitted by both the training builder and the
projection builder: the sixteen base metric columns and the five derived
columns. -/
def sharedFeatureKeys : List String :=
  ["home_off_epa", "home_off_pass_epa", "home_off_rush_epa",
   "home_def_epa", "home_def_pass_epa", "home_def_rush_epa",
   "away_off_epa", "away_off_pass_epa", "away_off_rush_epa",
   "away_def_epa", "away_def_pass_epa", "away_def_rush_epa",
   "home_points_per_play", "home_plays_per_game",
   "away_points_per_play", "away_plays_per_game",
   "off_epa_diff", "def_epa_diff", "ppp_diff",
   "home_matchup_edge", "away_matchup_edge"]

/-- Value of a named column in a row, with pandas lookup semantics
(`none` when the column is absent). -/
def rowGet (row : List (String × ℚ)) (k : String) : Option ℚ :=
  row.lookup k

/-- Value of a named column in a row, defaulting to `0` (every use in the
claims is at a column the row is proved to contain). -/
def rowGetD (row : List (String × ℚ)) (k : String) : ℚ :=
  (row.lookup k).getD 0

/-- Dot product of two coefficient/value vectors (models `numpy.dot` on
equal-length vectors, as used by sklearn's `LinearRegression.predict`,
which computes `X @ coef_ + intercept_`). -/
def dot : List ℚ → List ℚ → ℚ
  | [], _ => 0
  | _ :: _, [] => 0
  | x :: xs, y :: ys => x * y + dot xs ys

/-- Column selection `df[cols]` on one row, with pandas semantics: the
values of `cols` in that order when every named column is present, and a
`KeyError` naming a missing column otherwise.  Columns of `row` that are not
named in `cols` are not selected. -/
def selectCols {α : Type} : List String → List (String × α) → Except String (List α)
  | [], _ => Except.ok []
  | c :: rest, row =>
    match List.lookup c row, selectCols rest row with
    | none, _ => Except.error ("KeyError: " ++ c)
    | some _, Except.error e => Except.error e
    | some v, Except.ok vs => Except.ok (v :: vs)

/-- The `get_signal` closure of `project_week`
(`scripts/04_analysis_utils.py` lines 238-243): strictly above the threshold
is `OVER`, strictly below the negated threshold is `UNDER`, everything else
is `NO EDGE` (the code's label for the spec's `HOLD`).  The copy in
`scripts/03_project_playoffs.py` lines 111-117 is the same function with the
threshold fixed at 2. -/
def get_signal (diff edge_threshold : ℚ) : String :=
  if diff > edge_threshold then "OVER"
  else if diff < -edge_threshold then "UNDER"
  else "NO EDGE"

/-- Per-row embedding of the prediction-and-signal part of `project_week`
(`scripts/04_analysis_utils.py` lines 232-245): select the model's feature
columns from the built row (`X = result[feature_columns]`), apply the fitted
linear model (`model.predict`, i.e. dot product with the trained coefficients
plus the intercept), take the difference against the Vegas total, and
classify it with `get_signal`. -/
def project_week_totals (coef : List ℚ) (intercept : ℚ) (cols : List String)
    (row : List (String × ℚ)) (vegas_total edge_threshold : ℚ) :
    Except String (ℚ × ℚ × String) :=
  match selectCols cols row with
  | Except.error e => Except.error e
  | Except.ok vals =>
    Except.ok (dot coef vals + intercept,
      dot coef vals + intercept - vegas_total,
      get_signal (dot coef vals + intercept - vegas_total) edge_threshold)

/-- Row-wise column selection `training_df[feature_columns]` over a whole
training table. -/
def selectMatrix (cols : List String) : List (List (String × ℚ)) → Except String (List (List ℚ))
  | [] => Except.ok []
  | r :: rs =>
    match selectCols cols r, selectMatrix cols rs with
    | Except.error e, _ => Except.error e
    | Except.ok _, Except.error e => Except.error e
    | Except.ok v, Except.ok vs => Except.ok (v :: vs)

/-- Single-column selection `training_df[k]` over a whole training table. -/
def selectColumn (k : String) : List (List (String × ℚ)) → Except String (List ℚ)
  | [] => Except.ok []
  | r :: rs =>
    match List.lookup k r, selectColumn k rs with
    | none, _ => Except.error ("KeyError: " ++ k)
    | some _, Except.error e => Except.error e
    | some v, Except.ok vs => Except.ok (v :: vs)

/-- Embedding of `fit_total_model` (`scripts/04_analysis_utils.py` lines
106-136).  The function selects `X = training_df[feature_columns]` (defaulting
to `DEFAULT_FEATURES`) and `y = training_df["total_points"]` and then calls
sklearn's `LinearRegression().fit(X, y)`.  The sklearn solver computes a
least-squares fit for any number of rows — it performs no
minimum-sample-count check, and `fit_total_model` adds none — and the
`r2_score`/`mae` metrics are functions of the solver output; so the only
failure modes are the column selections, and the embedding returns the
prepared solver inputs together with the feature-column list that the source
records in its metrics dict. -/
def fit_total_model (training_rows : List (List (String × ℚ)))
    (feature_cols : Option (List String)) :
    Except String (List (List ℚ) × List ℚ × List String) :=
  match selectMatrix (feature_cols.getD DEFAULT_FEATURES) training_rows,
        selectColumn "total_points" training_rows with
  | Except.error e, _ => Except.error e
  | Except.ok _, Except.error e => Except.error e
  | Except.ok X, Except.ok y => Except.ok (X, y, feature_cols.getD DEFAULT_FEATURES)

/-- Whether a pipeline step returned a value rather than an error. -/
def isOkE {α : Type} : Except String α → Bool
  | Except.ok _ => true
  | Except.error _ => false

/-- Home team metric record of the spec's end-to-end scenario
(`off_efficiency = 0.10`, `def_efficiency = -0.05`, splits absent, read as
the code's `off_epa_per_play`/`def_epa_per_play` columns). -/
def scenarioHome : TeamEpa := ⟨1/10, 0, 0, -1/20, 0, 0⟩

/-- Away team metric record of the spec's end-to-end scenario
(`off_efficiency = -0.02`, `def_efficiency = 0.03`). -/
def scenarioAway : TeamEpa := ⟨-1/50, 0, 0, 3/100, 0, 0⟩

/-- Neutral points/pace record for the scenario teams. -/
def scenarioPoints : TeamPoints := ⟨0, 0⟩

/-- Scenario model coefficients: weight 50 on `home_matchup_edge` (position
14 of `DEFAULT_FEATURES`), 0 elsewhere. -/
def scenarioCoef : List ℚ :=
  [0, 0, 0, 0, 0, 0, 0, 0, 0, 0, 0, 0, 0, 0, 50, 0]

/-- Two training rows over five distinct feature keys, the spec's
insufficient-data example input. -/
def twoRows : List (List (String × ℚ)) :=
  [[("f1", 1), ("f2", 2), ("f3", 3), ("f4", 4), ("f5", 5), ("total_points", 40)],
   [("f1", 2), ("f2", 1), ("f3", 0), ("f4", 3), ("f5", 2), ("total_points", 47)]]

/-- The five distinct feature keys of the insufficient-data example. -/
def fiveCols : List String := ["f1", "f2", "f3", "f4", "f5"]

/-- One row of the team EPA table with pandas cell semantics: each metric
cell is either a number or a missing value (NaN), modelled as `Option ℚ`. -/
structure TeamEpaOpt where
  off_epa_per_play : Option ℚ
  off_pass_epa : Option ℚ
  off_rush_epa : Option ℚ
  def_epa_per_play : Option ℚ
  def_pass_epa : Option ℚ
  def_rush_epa : Option ℚ
deriving DecidableEq

/-- One row of the team points table with pandas cell semantics. -/
structure TeamPointsOpt where
  points_per_play : Option ℚ
  plays_per_game : Option ℚ
deriving DecidableEq

/-- NaN-propagating subtraction on pandas cells: the difference of two
numbers when both are present, NaN otherwise. -/
def osub : Option ℚ → Option ℚ → Option ℚ
  | none, _ => none
  | some _, none => none
  | some x, some y => some (x - y)

/-- NaN-propagating addition on pandas cells. -/
def oadd : Option ℚ → Option ℚ → Option ℚ
  | none, _ => none
  | some _, none => none
  | some x, some y => some (x + y)

/-- NaN-faithful per-row embedding of the feature-building part of
`project_week` (`scripts/04_analysis_utils.py` lines 163-230).  Each of the
four team joins is `how="left"`, so a team id with no record in a metrics
table contributes a whole group of NaN cells (here the record argument is
`none`) rather than failing; the derived columns of lines 226-230 then
propagate NaN through their subtractions.  `vegas_total` is the (also
left-joined, hence possibly missing) market line. -/
def project_week_row_opt (h a : Option TeamEpaOpt) (hp ap : Option TeamPointsOpt)
    (vegas_total : Option ℚ) : List (String × Option ℚ) :=
  [("vegas_total", vegas_total),
   ("home_off_epa", Option.bind h TeamEpaOpt.off_epa_per_play),
   ("home_off_pass_epa", Option.bind h TeamEpaOpt.off_pass_epa),
   ("home_off_rush_epa", Option.bind h TeamEpaOpt.off_rush_epa),
   ("home_def_epa", Option.bind h TeamEpaOpt.def_epa_per_play),
   ("home_def_pass_epa", Option.bind h TeamEpaOpt.def_pass_epa),
   ("home_def_rush_epa", Option.bind h TeamEpaOpt.def_rush_epa),
   ("away_off_epa", Option.bind a TeamEpaOpt.off_epa_per_play),
   ("away_off_pass_epa", Option.bind a TeamEpaOpt.off_pass_epa),
   ("away_off_rush_epa", Option.bind a TeamEpaOpt.off_rush_epa),
   ("away_def_epa", Option.bind a TeamEpaOpt.def_epa_per_play),
   ("away_def_pass_epa", Option.bind a TeamEpaOpt.def_pass_epa),
   ("away_def_rush_epa", Option.bind a TeamEpaOpt.def_rush_epa),
   ("home_points_per_play", Option.bind hp TeamPointsOpt.points_per_play),
   ("home_plays_per_game", Option.bind hp TeamPointsOpt.plays_per_game),
   ("away_points_per_play", Option.bind ap TeamPointsOpt.points_per_play),
   ("away_plays_per_game", Option.bind ap TeamPointsOpt.plays_per_game),
   ("off_epa_diff",
     osub (Option.bind h TeamEpaOpt.off_epa_per_play) (Option.bind a TeamEpaOpt.off_epa_per_play)),
   ("def_epa_diff",
     osub (Option.bind h TeamEpaOpt.def_epa_per_play) (Option.bind a TeamEpaOpt.def_epa_per_play)),
   ("ppp_diff",
     osub (Option.bind hp TeamPointsOpt.points_per_play) (Option.bind ap TeamPointsOpt.points_per_play)),
   ("home_matchup_edge",
     osub (Option.bind h TeamEpaOpt.off_epa_per_play) (Option.bind a TeamEpaOpt.def_epa_per_play)),
   ("away_matchup_edge",
     osub (Option.bind a TeamEpaOpt.off_epa_per_play) (Option.bind h TeamEpaOpt.def_epa_per_play))]

/-- NaN-faithful per-row embedding of `build_training_data`
(`scripts/04_analysis_utils.py` lines 24-103): the same left joins and
derived columns as projection, plus `total_points` from the game scores.
No `fillna` appears anywhere in `build_training_data`, `fit_total_model`
or `02_build_model.py`, so missing cells stay missing in the emitted
training row. -/
def build_training_data_row_opt (h a : Option TeamEpaOpt) (hp ap : Option TeamPointsOpt)
    (home_score away_score : Option ℚ) : List (String × Option ℚ) :=
  [("home_score", home_score), ("away_score", away_score),
   ("home_off_epa", Option.bind h TeamEpaOpt.off_epa_per_play),
   ("home_off_pass_epa", Option.bind h TeamEpaOpt.off_pass_epa),
   ("home_off_rush_epa", Option.bind h TeamEpaOpt.off_rush_epa),
   ("home_def_epa", Option.bind h TeamEpaOpt.def_epa_per_play),
   ("home_def_pass_epa", Option.bind h TeamEpaOpt.def_pass_epa),
   ("home_def_rush_epa", Option.bind h TeamEpaOpt.def_rush_epa),
   ("away_off_epa", Option.bind a TeamEpaOpt.off_epa_per_play),
   ("away_off_pass_epa", Option.bind a TeamEpaOpt.off_pass_epa),
   ("away_off_rush_epa", Option.bind a TeamEpaOpt.off_rush_epa),
   ("away_def_epa", Option.bind a TeamEpaOpt.def_epa_per_play),
   ("away_def_pass_epa", Option.bind a TeamEpaOpt.def_pass_epa),
   ("away_def_rush_epa", Option.bind a TeamEpaOpt.def_rush_epa),
   ("home_points_per_play", Option.bind hp TeamPointsOpt.points_per_play),
   ("home_plays_per_game", Option.bind hp TeamPointsOpt.plays_per_game),
   ("away_points_per_play", Option.bind ap TeamPointsOpt.points_per_play),
   ("away_plays_per_game", Option.bind ap TeamPointsOpt.plays_per_game),
   ("total_points", oadd home_score away_score),
   ("off_epa_diff",
     osub (Option.bind h TeamEpaOpt.off_epa_per_play) (Option.bind a TeamEpaOpt.off_epa_per_play)),
   ("def_epa_diff",
     osub (Option.bind h TeamEpaOpt.def_epa_per_play) (Option.bind a TeamEpaOpt.def_epa_per_play)),
   ("ppp_diff",
     osub (Option.bind hp TeamPointsOpt.points_per_play) (Option.bind ap TeamPointsOpt.points_per_play)),
   ("home_matchup_edge",
     osub (Option.bind h TeamEpaOpt.off_epa_per_play) (Option.bind a TeamEpaOpt.def_epa_per_play)),
   ("away_matchup_edge",
     osub (Option.bind a TeamEpaOpt.off_epa_per_play) (Option.bind h TeamEpaOpt.def_epa_per_play))]

/-- The Team Metrics Store lookup performed by each left merge: the metric
record of a team id, or `none` when the id has no row in the table. -/
def lookupTeam {α : Type} (table : List (String × α)) (team : String) : Option α :=
  List.lookup team table

/-- One projection row of `project_week` resolved against concrete metric
tables: the four left merges (lines 174-223) keyed on the home and away team
ids. -/
def project_week_row_from_tables (epa : List (String × TeamEpaOpt))
    (pts : List (String × TeamPointsOpt)) (home away : String)
    (vegas_total : Option ℚ) : List (String × Option ℚ) :=
  project_week_row_opt (lookupTeam epa home) (lookupTeam epa away)
    (lookupTeam pts home) (lookupTeam pts away) vegas_total

/-- Concrete team EPA record used in counterexamples. -/
def kcEpa : TeamEpaOpt :=
  ⟨some (1/20), some (1/10), some (-1/100), some (-1/25), some (-1/20), some (1/100)⟩

/-- Concrete team points record used in counterexamples. -/
def kcPts : TeamPointsOpt := ⟨some (2/5), some 63⟩

/-- The regression input built by `project_week` for a matchup whose home
team is unknown: the away (KC) values are present, every home-derived and
differential cell is NaN. -/
def unknownTeamX : List (Option ℚ) :=
  [none, none, none, none,
   some (1/20), some (-1/25), some (1/10), some (-1/100),
   none, some (2/5), none, some 63,
   none, none, none, none]

/-- Concrete home EPA record with a missing optional pass-efficiency split
(`off_pass_epa` is NaN), used in the C8 counterexample. -/
def noPassEpaHome : TeamEpaOpt :=
  ⟨some (1/10), none, some 0, some (-1/20), some 0, some 0⟩

/-- Concrete away EPA record with every field present. -/
def fullAway : TeamEpaOpt :=
  ⟨some 0, some 0, some 0, some 0, some 0, some 0⟩

/-- Concrete points record with every field present. -/
def fullPts : TeamPointsOpt := ⟨some 0, some 0⟩

/-- The regression input built by `build_training_data` /  `fit_total_model`
from `noPassEpaHome` and `fullAway`: the missing pass split stays NaN. -/
def noPassEpaX : List (Option ℚ) :=
  [some (1/10), some (-1/20), none, some 0,
   some 0, some 0, some 0, some 0,
   some 0, some 0, some 0, some 0,
   some (1/10 - 0), some (-1/20 - 0), some (1/10 - 0), some (0 - -1/20)]

/-- Dictionary read with a default, modelling Python's `dict.get(key,
default)`. -/
def dget (d : List (String × ℚ)) (k : String) (dflt : ℚ) : ℚ :=
  (List.lookup k d).getD dflt

/-- The feature dict built per game by `scripts/04_enhanced_model.py` lines
54-78: every per-team stat is read with `.get(key, 0)`, so an absent field
contributes `0` (not NaN); the two injury factors are initialised to `1.0`
(the later adjustment loop multiplies them and is irrelevant to the
missing-field policy). -/
def enhanced_features (away_stats home_stats away_adv home_adv : List (String × ℚ)) :
    List (String × ℚ) :=
  [("away_off_epa", dget away_stats "off_epa_per_play" 0),
   ("home_off_epa", dget home_stats "off_epa_per_play" 0),
   ("away_pass_epa", dget away_stats "off_pass_epa" 0),
   ("away_rush_epa", dget away_stats "off_rush_epa" 0),
   ("home_pass_epa", dget home_stats "off_pass_epa" 0),
   ("home_rush_epa", dget home_stats "off_rush_epa" 0),
   ("away_def_epa", dget away_stats "def_epa_per_play" 0),
   ("home_def_epa", dget home_stats "def_epa_per_play" 0),
   ("away_pass_yards", dget away_adv "pass_yards" 0),
   ("home_pass_yards", dget home_adv "pass_yards" 0),
   ("away_rush_yards", dget away_adv "rush_yards" 0),
   ("home_rush_yards", dget home_adv "rush_yards" 0),
   ("away_turnovers", dget away_adv "turnovers" 0),
   ("home_turnovers", dget home_adv "turnovers" 0),
   ("away_injury_factor", 1),
   ("home_injury_factor", 1)]

/-- A pandas cell after `fillna(0)` (`05_historical_model.py` line 137,
`04_enhanced_model.py` line 104): the value when present, else `0`. -/
def fillna0 (v : Option ℚ) : ℚ := v.getD 0

/-- Output record of the team-specific predictor
(`scripts/06_team_specific_model.py` lines 80-90). -/
structure Prediction where
  vegas_total : ℚ
  model_total : ℚ
  home_score : ℚ
  away_score : ℚ
  edge : ℚ
  recommendation : String
deriving DecidableEq

/-- Clamp to a closed interval, modelling `np.clip(x, lo, hi)`. -/
def clip (x lo hi : ℚ) : ℚ := min (max x lo) hi

/-- `calculate_prediction` of `scripts/06_team_specific_model.py` lines
31-60: EPA-scaled team scores around a base of 23 points, clipped to
[10, 40]; returns (total, home score, away score). -/
def calculate_prediction (home_stats away_stats : List (String × ℚ)) :
    ℚ × ℚ × ℚ :=
  (clip (23 + dget home_stats "off_epa_per_play" 0 * 35 -
      dget home_stats "def_epa_per_play" 0 * 35 * (1/2)) 10 40 +
   clip (23 + dget away_stats "off_epa_per_play" 0 * 35 -
      dget away_stats "def_epa_per_play" 0 * 35 * (1/2)) 10 40,
   clip (23 + dget home_stats "off_epa_per_play" 0 * 35 -
      dget home_stats "def_epa_per_play" 0 * 35 * (1/2)) 10 40,
   clip (23 + dget away_stats "off_epa_per_play" 0 * 35 -
      dget away_stats "def_epa_per_play" 0 * 35 * (1/2)) 10 40)

/-- Per-game embedding of the prediction loop of
`scripts/06_team_specific_model.py` lines 64-91: stats dicts are fetched
with `team_stats.get(abbr, {})`; when either dict is empty (in particular
when the team id is absent) the predicted total falls back to the Vegas
total and each projected score to half of it; the edge is the predicted
total minus the Vegas total, and the recommendation is `over`/`under` only
strictly beyond 2 points, else `hold`. -/
def team_specific_prediction (team_stats : List (String × List (String × ℚ)))
    (home_abbr away_abbr : String) (vegas_total : ℚ) : Prediction :=
  let home_stats := (List.lookup home_abbr team_stats).getD []
  let away_stats := (List.lookup away_abbr team_stats).getD []
  let r := if home_stats.isEmpty || away_stats.isEmpty then
      (vegas_total, vegas_total / 2, vegas_total / 2)
    else calculate_prediction home_stats away_stats
  { vegas_total := vegas_total
    model_total := r.1
    home_score := r.2.1
    away_score := r.2.2
    edge := r.1 - vegas_total
    recommendation :=
      if r.1 > vegas_total + 2 then "over"
      else if r.1 < vegas_total - 2 then "under"
      else "hold" }

/-- Helper: NaN-propagating subtraction yields NaN when the right operand is
NaN. -/
theorem osub_none_right (x : Option ℚ) : osub x none = none := by
  cases x <;> rfl

/-- Helper: on fully present inputs the NaN-faithful projection row builder
agrees cell for cell with the total one. -/
theorem project_week_row_opt_total (h a : TeamEpa) (hp ap : TeamPoints) (vt : ℚ) :
    project_week_row_opt
      (some ⟨some h.off_epa_per_play, some h.off_pass_epa, some h.off_rush_epa,
        some h.def_epa_per_play, some h.def_pass_epa, some h.def_rush_epa⟩)
      (some ⟨some a.off_epa_per_play, some a.off_pass_epa, some a.off_rush_epa,
        some a.def_epa_per_play, some a.def_pass_epa, some a.def_rush_epa⟩)
      (some ⟨some hp.points_per_play, some hp.plays_per_game⟩)
      (some ⟨some ap.points_per_play, some ap.plays_per_game⟩)
      (some vt) =
    (project_week_row h a hp ap vt).map (fun p => (p.1, some p.2)) := by
  rfl

/-- Helper: when every requested column is present in the row, selection
returns exactly the values of the requested columns in request order. -/
theorem selectCols_eq_ok {α : Type} (cols : List String) (row : List (String × α))
    (hd : α) (h : ∀ c ∈ cols, (List.lookup c row).isSome) :
    selectCols cols row = Except.ok (cols.map fun c => (List.lookup c row).getD hd) := by
  induction cols with
  | nil => rfl
  | cons c rest ih =>
    have hc := h c (List.mem_cons_self c rest)
    obtain ⟨v, hv⟩ := Option.isSome_iff_exists.mp hc
    have hrest := ih (fun x hx => h x (List.mem_cons_of_mem c hx))
    simp only [selectCols, hv, hrest, List.map_cons, Option.getD_some]

/-- Helper: when some requested column is absent from the row, selection
fails with an error. -/
theorem selectCols_error {α : Type} (cols : List String) (row : List (String × α))
    (h : ∃ c ∈ cols, List.lookup c row = none) :
    ∃ e, selectCols cols row = Except.error e := by
  induction cols with
  | nil => simp at h
  | cons c rest ih =>
    obtain ⟨x, hx, hnone⟩ := h
    rcases List.mem_cons.mp hx with rfl | hx2
    · exact ⟨"KeyError: " ++ x, by simp [selectCols, hnone]⟩
    · cases hl : List.lookup c row with
      | none => exact ⟨"KeyError: " ++ c, by simp [selectCols, hl]⟩
      | some v =>
        obtain ⟨e, he⟩ := ih ⟨x, hx2, hnone⟩
        exact ⟨e, by simp [selectCols, hl, he]⟩

/-- Helper: matrix selection succeeds when every row has every requested
column. -/
theorem selectMatrix_ok (cols : List String) (rows : List (List (String × ℚ)))
    (h : ∀ r ∈ rows, ∀ c ∈ cols, (List.lookup c r).isSome) :
    ∃ X, selectMatrix cols rows = Except.ok X := by
  induction rows with
  | nil => exact ⟨[], rfl⟩
  | cons r rs ih =>
    have hr := selectCols_eq_ok cols r 0 (h r (List.mem_cons_self r rs))
    obtain ⟨X, hX⟩ := ih (fun x hx => h x (List.mem_cons_of_mem r hx))
    exact ⟨(cols.map fun c => (List.lookup c r).getD 0) :: X,
      by simp [selectMatrix, hr, hX]⟩

/-- Helper: single-column selection succeeds when every row has the column. -/
theorem selectColumn_ok (k : String) (rows : List (List (String × ℚ)))
    (h : ∀ r ∈ rows, (List.lookup k r).isSome) :
    ∃ y, selectColumn k rows = Except.ok y := by
  induction rows with
  | nil => exact ⟨[], rfl⟩
  | cons r rs ih =>
    obtain ⟨v, hv⟩ := Option.isSome_iff_exists.mp (h r (List.mem_cons_self r rs))
    obtain ⟨y, hy⟩ := ih (fun x hx => h x (List.mem_cons_of_mem r hx))
    exact ⟨v :: y, by simp [selectColumn, hv, hy]⟩

/-- C1: training-mode (`build_training_data`) and projection-mode
(`project_week`) feature derivation agree on every shared feature column,
including the derived differential columns, for every pair of team metric
records and every market line: both compute the same pure function of the
team records. -/
theorem c1_feature_symmetry (h a : TeamEpa) (hp ap : TeamPoints)
    (s1 s2 vt : ℚ) :
    sharedFeatureKeys.map (rowGet (build_training_data_row h a hp ap s1 s2)) =
      sharedFeatureKeys.map (rowGet (project_week_row h a hp ap vt)) := by
  rfl

/-- C4: in every feature row built by the training builder and in every
feature row built by the projection builder, the four derived differential
columns equal exactly their defining differences of base columns. -/
theorem c4_differential_consistency (h a : TeamEpa) (hp ap : TeamPoints)
    (s1 s2 vt : ℚ) :
    (rowGetD (build_training_data_row h a hp ap s1 s2) "off_epa_diff" =
      rowGetD (build_training_data_row h a hp ap s1 s2) "home_off_epa" -
        rowGetD (build_training_data_row h a hp ap s1 s2) "away_off_epa" ∧
     rowGetD (build_training_data_row h a hp ap s1 s2) "def_epa_diff" =
      rowGetD (build_training_data_row h a hp ap s1 s2) "home_def_epa" -
        rowGetD (build_training_data_row h a hp ap s1 s2) "away_def_epa" ∧
     rowGetD (build_training_data_row h a hp ap s1 s2) "home_matchup_edge" =
      rowGetD (build_training_data_row h a hp ap s1 s2) "home_off_epa" -
        rowGetD (build_training_data_row h a hp ap s1 s2) "away_def_epa" ∧
     rowGetD (build_training_data_row h a hp ap s1 s2) "away_matchup_edge" =
      rowGetD (build_training_data_row h a hp ap s1 s2) "away_off_epa" -
        rowGetD (build_training_data_row h a hp ap s1 s2) "home_def_epa") ∧
    (rowGetD (project_week_row h a hp ap vt) "off_epa_diff" =
      rowGetD (project_week_row h a hp ap vt) "home_off_epa" -
        rowGetD (project_week_row h a hp ap vt) "away_off_epa" ∧
     rowGetD (project_week_row h a hp ap vt) "def_epa_diff" =
      rowGetD (project_week_row h a hp ap vt) "home_def_epa" -
        rowGetD (project_week_row h a hp ap vt) "away_def_epa" ∧
     rowGetD (project_week_row h a hp ap vt) "home_matchup_edge" =
      rowGetD (project_week_row h a hp ap vt) "home_off_epa" -
        rowGetD (project_week_row h a hp ap vt) "away_def_epa" ∧
     rowGetD (project_week_row h a hp ap vt) "away_matchup_edge" =
      rowGetD (project_week_row h a hp ap vt) "away_off_epa" -
        rowGetD (project_week_row h a hp ap vt) "home_def_epa") := by
  exact ⟨⟨rfl, rfl, rfl, rfl⟩, ⟨rfl, rfl, rfl, rfl⟩⟩

/-- C2: for every fitted model (coefficient list, intercept, trained column
order) and every built row from which the trained columns can be selected,
the projected total returned by the `project_week` prediction step is the dot
product of the coefficients with the selected values in trained order plus
the intercept, and the reported difference (edge) is that total minus the
market total, classified by `get_signal`. -/
theorem c2_projection_dot_product (coef : List ℚ) (b : ℚ) (cols : List String)
    (row : List (String × ℚ)) (vt thr : ℚ) (vals : List ℚ)
    (hsel : selectCols cols row = Except.ok vals) :
    project_week_totals coef b cols row vt thr =
      Except.ok (dot coef vals + b, dot coef vals + b - vt,
        get_signal (dot coef vals + b - vt) thr) := by
  unfold project_week_totals
  rw [hsel]

/-- C2 witness: the spec's end-to-end scenario.  Building the projection row
from the scenario team records (so that `home_matchup_edge = 0.10 - 0.03 =
0.07`), a model with intercept 45 and weight 50 on `home_matchup_edge` only,
and a market total of 45.5, yields projected total 48.5 (= 97/2), edge 3.0,
and signal `OVER`. -/
theorem c2_projection_dot_product_witness :
    project_week_totals scenarioCoef 45 DEFAULT_FEATURES
      (project_week_row scenarioHome scenarioAway scenarioPoints scenarioPoints (91/2))
      (91/2) 2 =
    Except.ok (97/2, 3, "OVER") := by
  have h := c2_projection_dot_product scenarioCoef 45 DEFAULT_FEATURES
    (project_week_row scenarioHome scenarioAway scenarioPoints scenarioPoints (91/2))
    (91/2) 2
    [1/10, -1/20, 0, 0, -1/50, 3/100, 0, 0, 0, 0, 0, 0,
     1/10 - -1/50, -1/20 - 3/100, 1/10 - 3/100, -1/50 - -1/20]
    rfl
  rw [h]
  norm_num [dot, scenarioCoef, get_signal]

/-- C3 counterexample: the claim quantifies over every edge threshold, but
for a negative threshold the strict-inequality characterization fails: with
threshold `-5`, the edge `0` is strictly below the negated threshold (`0 <
5`) yet classifies as `OVER`, and an edge exactly equal to the threshold
(`-5`) classifies as `UNDER`, not as the hold classification `NO EDGE`. -/
theorem c3_signal_threshold_counterexample :
    (0 : ℚ) < -(-5 : ℚ) ∧ get_signal 0 (-5) = "OVER" ∧
    get_signal (-5) (-5) = "UNDER" := by
  decide

/-- C3 amended: for every edge and every nonnegative threshold (the
configurable threshold defaults to 2.0), the classification is total and
strict: `OVER` exactly when the edge strictly exceeds the threshold, `UNDER`
exactly when it is strictly below the negated threshold, and the hold
classification (`NO EDGE` in the code) exactly otherwise — in particular at
edge equal to the threshold and at edge equal to the negated threshold. -/
theorem c3_signal_classification (e t : ℚ) (ht : 0 ≤ t) :
    (get_signal e t = "OVER" ↔ t < e) ∧
    (get_signal e t = "UNDER" ↔ e < -t) ∧
    (get_signal e t = "NO EDGE" ↔ (-t ≤ e ∧ e ≤ t)) ∧
    get_signal t t = "NO EDGE" ∧ get_signal (-t) t = "NO EDGE" := by
  have hO : ∀ x : ℚ, get_signal x t = "OVER" ↔ t < x := by
    intro x
    unfold get_signal
    split_ifs with h1 h2
    · exact ⟨fun _ => h1, fun _ => rfl⟩
    · exact ⟨fun hc => absurd hc (by decide), fun hx => absurd hx h1⟩
    · exact ⟨fun hc => absurd hc (by decide), fun hx => absurd hx h1⟩
  have hU : ∀ x : ℚ, get_signal x t = "UNDER" ↔ x < -t := by
    intro x
    unfold get_signal
    split_ifs with h1 h2
    · exact ⟨fun hc => absurd hc (by decide), fun hx => absurd h1 (by linarith)⟩
    · exact ⟨fun _ => h2, fun _ => rfl⟩
    · exact ⟨fun hc => absurd hc (by decide), fun hx => absurd hx h2⟩
  have hN : ∀ x : ℚ, get_signal x t = "NO EDGE" ↔ (-t ≤ x ∧ x ≤ t) := by
    intro x
    unfold get_signal
    split_ifs with h1 h2
    · exact ⟨fun hc => absurd hc (by decide), fun hx => absurd h1 (by push_neg; linarith [hx.2])⟩
    · exact ⟨fun hc => absurd hc (by decide), fun hx => absurd h2 (by push_neg; linarith [hx.1])⟩
    · push_neg at h1 h2
      exact ⟨fun _ => ⟨by linarith, h1⟩, fun _ => rfl⟩
  exact ⟨hO e, hU e, hN e,
    (hN t).mpr ⟨by linarith, le_refl t⟩,
    (hN (-t)).mpr ⟨le_refl _, by linarith⟩⟩

/-- C3 witness: with the default threshold 2.0, edge 3 classifies `OVER`,
edge -3 classifies `UNDER`, and edges exactly at 2 and -2 classify as the
hold signal `NO EDGE`. -/
theorem c3_signal_classification_witness :
    get_signal 3 2 = "OVER" ∧ get_signal (-3) 2 = "UNDER" ∧
    get_signal 2 2 = "NO EDGE" ∧ get_signal (-2) 2 = "NO EDGE" := by
  have h3 := c3_signal_classification 3 2 (by norm_num)
  have hm3 := c3_signal_classification (-3) 2 (by norm_num)
  exact ⟨h3.1.mpr (by norm_num), hm3.2.1.mpr (by norm_num), h3.2.2.2.1, h3.2.2.2.2⟩

/-- C6 counterexample: projecting with a feature set strictly larger than the
trained list does not fail — selecting trained columns `A, B, C` from a row
that also carries an extra column `D` silently ignores `D` and succeeds,
rather than failing with a schema error as the claim states for a strictly
larger key set. -/
theorem c6_schema_counterexample :
    selectCols ["A", "B", "C"] [("A", (1 : ℚ)), ("B", 2), ("C", 3), ("D", 4)] =
      Except.ok [1, 2, 3] ∧ ("D" : String) ∉ ["A", "B", "C"] := by
  exact ⟨rfl, by decide⟩

/-- C6 amended: the projection-time column selection
(`X = result[feature_columns]` in `project_week`, `X_future =
playoff_features_df[feature_columns]` in the playoff script) fails (pandas
`KeyError`) when some trained feature column is missing from the row, but a
row with extra columns beyond the trained list is silently reduced to the
trained columns in trained order — extra keys are ignored, not rejected,
and no explicit `SchemaMismatch` check exists. -/
theorem c6_schema_check (cols : List String) (row : List (String × ℚ)) :
    ((∃ c ∈ cols, List.lookup c row = none) →
      ∃ e, selectCols cols row = Except.error e) ∧
    ((∀ c ∈ cols, (List.lookup c row).isSome) →
      selectCols cols row = Except.ok (cols.map fun c => (List.lookup c row).getD 0)) := by
  exact ⟨selectCols_error cols row, selectCols_eq_ok cols row 0⟩

/-- C6 witness: with trained columns `A, B` and a row carrying `A, B, C`,
selection succeeds with the trained values in order (ignoring `C`); with
trained columns `A, B, Z` and the same row, selection fails because `Z` is
missing. -/
theorem c6_schema_check_witness :
    selectCols ["A", "B"] [("A", (1 : ℚ)), ("B", 2), ("C", 3)] = Except.ok [1, 2] ∧
    (∃ e, selectCols ["A", "B", "Z"] [("A", (1 : ℚ)), ("B", 2), ("C", 3)] =
      Except.error e) := by
  constructor
  · exact ((c6_schema_check ["A", "B"] [("A", (1 : ℚ)), ("B", 2), ("C", 3)]).2
      (by decide)).trans rfl
  · exact (c6_schema_check ["A", "B", "Z"] [("A", (1 : ℚ)), ("B", 2), ("C", 3)]).1
      ⟨"Z", by decide, rfl⟩

/-- C7 counterexample: `fit_total_model` has no minimum-sample guard.  With
2 training rows over 5 distinct feature keys (2 ≤ 5, the spec's
insufficient-data example) the fit pipeline succeeds — the column selections
pass and sklearn's solver, which accepts underdetermined systems, is reached
— instead of failing with `InsufficientData`. -/
theorem c7_insufficient_data_counterexample :
    twoRows.length ≤ fiveCols.length ∧
    isOkE (fit_total_model twoRows (some fiveCols)) = true := by
  exact ⟨by decide, rfl⟩

/-- C7 amended: the success of `fit_total_model` is determined solely by
column presence — whenever every training row carries every requested feature
column and the `total_points` column, the fit succeeds, with no condition
relating the number of rows to the number of feature keys and no
`InsufficientData` failure path. -/
theorem c7_fit_no_sample_guard (rows : List (List (String × ℚ))) (cols : List String)
    (hX : ∀ r ∈ rows, ∀ c ∈ cols, (List.lookup c r).isSome)
    (hy : ∀ r ∈ rows, (List.lookup "total_points" r).isSome) :
    isOkE (fit_total_model rows (some cols)) = true := by
  obtain ⟨X, hXok⟩ := selectMatrix_ok cols rows hX
  obtain ⟨y, hyok⟩ := selectColumn_ok "total_points" rows hy
  simp [fit_total_model, hXok, hyok, isOkE]

/-- C7 witness: the no-sample-guard theorem applied to the concrete 2-row,
5-key input. -/
theorem c7_fit_no_sample_guard_witness :
    isOkE (fit_total_model twoRows (some fiveCols)) = true := by
  exact c7_fit_no_sample_guard twoRows fiveCols (by decide) (by decide)

/-- C9 counterexample: the feature-name list actually used for fitting and
projection, `DEFAULT_FEATURES`, is not sorted: its first element
`home_off_epa` is strictly greater than its second element `home_def_epa`. -/
theorem c9_sorted_counterexample :
    ¬ List.Sorted (· ≤ ·) DEFAULT_FEATURES := by
  intro hs
  unfold DEFAULT_FEATURES at hs
  have h2 := (List.pairwise_cons.mp hs).1 "home_def_epa" (by simp)
  rw [String.le_iff_toList_le] at h2
  exact absurd h2 (by decide)

/-- C9 amended: the feature-name ordering is fixed but not sorted: the
trainer's literal `feature_columns` list (`02_build_model.py`) and the
shared `DEFAULT_FEATURES` list used by `fit_total_model` and `project_week`
are identical element for element, so fitting and projection agree on the
positional key order, while the list itself is not lexicographically
sorted. -/
theorem c9_fixed_feature_order :
    DEFAULT_FEATURES = feature_columns_02 ∧
    ¬ List.Sorted (· ≤ ·) DEFAULT_FEATURES := by
  refine ⟨rfl, ?_⟩
  intro hs
  unfold DEFAULT_FEATURES at hs
  have h2 := (List.pairwise_cons.mp hs).1 "home_def_epa" (by simp)
  rw [String.le_iff_toList_le] at h2
  exact absurd h2 (by decide)

/-- Helper: selecting the model's feature columns from a projection row
always succeeds — the left joins materialise every column (possibly as NaN),
so the selection never raises, whatever the team lookups returned. -/
theorem selectCols_project_week_row_opt (h a : Option TeamEpaOpt)
    (hp ap : Option TeamPointsOpt) (vt : Option ℚ) :
    isOkE (selectCols DEFAULT_FEATURES (project_week_row_opt h a hp ap vt)) = true := by
  rfl

/-- C5 counterexample: with a metrics store containing only team `KC`, the
matchup `XYZ` at `KC` (home team unknown) does not fail: `project_week`'s
left joins produce a complete feature row for it, the feature-column
selection succeeds, and the resulting regression input is the explicit
NaN-bearing vector `unknownTeamX` — no `UnknownTeam` error exists and a
feature vector is produced. -/
theorem c5_unknown_team_counterexample :
    lookupTeam [("KC", kcEpa)] "XYZ" = none ∧
    selectCols DEFAULT_FEATURES
      (project_week_row_from_tables [("KC", kcEpa)] [("KC", kcPts)] "XYZ" "KC"
        (some (91/2))) = Except.ok unknownTeamX ∧
    none ∈ unknownTeamX := by
  refine ⟨rfl, rfl, by simp [unknownTeamX]⟩

/-- C5 amended: for every matchup whose home (or away) team id has no record
in the metric tables, the projection feature builder still produces a row —
the lookups yield `none`, every derived differential cell is NaN, and the
feature-column selection succeeds, handing the NaN-bearing vector on to the
external predict step instead of failing with an `UnknownTeam` error. -/
theorem c5_unknown_team_row (epa : List (String × TeamEpaOpt))
    (pts : List (String × TeamPointsOpt)) (home away : String) (vt : Option ℚ)
    (hmiss : (lookupTeam epa home = none ∧ lookupTeam pts home = none) ∨
             (lookupTeam epa away = none ∧ lookupTeam pts away = none)) :
    List.lookup "off_epa_diff" (project_week_row_from_tables epa pts home away vt) = some none ∧
    List.lookup "def_epa_diff" (project_week_row_from_tables epa pts home away vt) = some none ∧
    List.lookup "ppp_diff" (project_week_row_from_tables epa pts home away vt) = some none ∧
    List.lookup "home_matchup_edge" (project_week_row_from_tables epa pts home away vt) = some none ∧
    List.lookup "away_matchup_edge" (project_week_row_from_tables epa pts home away vt) = some none ∧
    isOkE (selectCols DEFAULT_FEATURES (project_week_row_from_tables epa pts home away vt)) = true := by
  unfold project_week_row_from_tables
  rcases hmiss with ⟨h1, h2⟩ | ⟨h1, h2⟩ <;> rw [h1, h2]
  · refine ⟨rfl, rfl, rfl, rfl, ?_, selectCols_project_week_row_opt _ _ _ _ _⟩
    have e : List.lookup "away_matchup_edge"
        (project_week_row_opt none (lookupTeam epa away) none (lookupTeam pts away) vt) =
        some (osub (Option.bind (lookupTeam epa away) TeamEpaOpt.off_epa_per_play) none) := rfl
    rw [e, osub_none_right]
  · refine ⟨?_, ?_, ?_, ?_, rfl, selectCols_project_week_row_opt _ _ _ _ _⟩
    · have e : List.lookup "off_epa_diff"
          (project_week_row_opt (lookupTeam epa home) none (lookupTeam pts home) none vt) =
          some (osub (Option.bind (lookupTeam epa home) TeamEpaOpt.off_epa_per_play) none) := rfl
      rw [e, osub_none_right]
    · have e : List.lookup "def_epa_diff"
          (project_week_row_opt (lookupTeam epa home) none (lookupTeam pts home) none vt) =
          some (osub (Option.bind (lookupTeam epa home) TeamEpaOpt.def_epa_per_play) none) := rfl
      rw [e, osub_none_right]
    · have e : List.lookup "ppp_diff"
          (project_week_row_opt (lookupTeam epa home) none (lookupTeam pts home) none vt) =
          some (osub (Option.bind (lookupTeam pts home) TeamPointsOpt.points_per_play) none) := rfl
      rw [e, osub_none_right]
    · have e : List.lookup "home_matchup_edge"
          (project_week_row_opt (lookupTeam epa home) none (lookupTeam pts home) none vt) =
          some (osub (Option.bind (lookupTeam epa home) TeamEpaOpt.off_epa_per_play) none) := rfl
      rw [e, osub_none_right]

/-- C5 witness: the amended theorem applied to the concrete store containing
only `KC`, for the matchup with unknown home team `XYZ`. -/
theorem c5_unknown_team_row_witness :
    List.lookup "home_matchup_edge"
      (project_week_row_from_tables [("KC", kcEpa)] [("KC", kcPts)] "XYZ" "KC"
        (some (91/2))) = some none ∧
    isOkE (selectCols DEFAULT_FEATURES
      (project_week_row_from_tables [("KC", kcEpa)] [("KC", kcPts)] "XYZ" "KC"
        (some (91/2)))) = true := by
  have h := c5_unknown_team_row [("KC", kcEpa)] [("KC", kcPts)] "XYZ" "KC"
    (some (91/2)) (Or.inl ⟨rfl, rfl⟩)
  exact ⟨h.2.2.2.1, h.2.2.2.2.2⟩

/-- C8 counterexample: in the canonical training builder
(`build_training_data` feeding `fit_total_model`), a team record with an
absent optional pass-efficiency split is not defaulted to 0: the emitted
`home_off_pass_epa` cell is NaN, the feature-column selection succeeds, and
the NaN reaches the regression input — there is no `fillna` in that
pipeline, so a missing-value marker does reach the regression. -/
theorem c8_missing_field_counterexample :
    List.lookup "home_off_pass_epa"
      (build_training_data_row_opt (some noPassEpaHome) (some fullAway)
        (some fullPts) (some fullPts) (some 27) (some 24)) = some none ∧
    selectCols DEFAULT_FEATURES
      (build_training_data_row_opt (some noPassEpaHome) (some fullAway)
        (some fullPts) (some fullPts) (some 27) (some 24)) = Except.ok noPassEpaX ∧
    none ∈ noPassEpaX := by
  refine ⟨rfl, rfl, by simp [noPassEpaX]⟩

/-- C8 amended: the 0.0-for-missing policy holds in the enhanced model's
feature builder, not in the canonical one: `04_enhanced_model.py` reads
every per-team stat with `.get(key, 0)`, so an absent pass-efficiency split
contributes exactly 0 to the emitted feature dict, and the historical
model's `fillna(0)` likewise maps a NaN cell to 0 before the regression. -/
theorem c8_enhanced_default_zero (away_stats home_stats away_adv home_adv : List (String × ℚ))
    (ha : List.lookup "off_pass_epa" away_stats = none)
    (hh : List.lookup "off_pass_epa" home_stats = none) :
    List.lookup "away_pass_epa"
      (enhanced_features away_stats home_stats away_adv home_adv) = some 0 ∧
    List.lookup "home_pass_epa"
      (enhanced_features away_stats home_stats away_adv home_adv) = some 0 ∧
    fillna0 none = 0 := by
  refine ⟨?_, ?_, rfl⟩ <;> simp [enhanced_features, dget, ha, hh, List.lookup]

/-- C8 witness: the enhanced builder applied to stats dicts that lack the
pass-efficiency split emits 0 for both pass-EPA features. -/
theorem c8_enhanced_default_zero_witness :
    List.lookup "away_pass_epa"
      (enhanced_features [("off_epa_per_play", (1:ℚ)/20)] [("off_epa_per_play", 3/100)]
        [] []) = some 0 ∧
    List.lookup "home_pass_epa"
      (enhanced_features [("off_epa_per_play", (1:ℚ)/20)] [("off_epa_per_play", 3/100)]
        [] []) = some 0 := by
  have h := c8_enhanced_default_zero [("off_epa_per_play", (1:ℚ)/20)]
    [("off_epa_per_play", 3/100)] [] [] rfl rfl
  exact ⟨h.1, h.2.1⟩

/-- C10: in the team-specific projector, a game for which either team id is
absent from the loaded `team_stats` mapping falls back to the Vegas numbers:
predicted total equal to the Vegas total, each projected score equal to half
of it, edge exactly 0, recommendation `hold` — never an over/under signal
and never an error. -/
theorem c10_missing_team_hold (ts : List (String × List (String × ℚ)))
    (h a : String) (vt : ℚ)
    (hmiss : List.lookup h ts = none ∨ List.lookup a ts = none) :
    (team_specific_prediction ts h a vt).model_total = vt ∧
    (team_specific_prediction ts h a vt).home_score = vt / 2 ∧
    (team_specific_prediction ts h a vt).away_score = vt / 2 ∧
    (team_specific_prediction ts h a vt).edge = 0 ∧
    (team_specific_prediction ts h a vt).recommendation = "hold" := by
  rcases hmiss with hm | hm <;>
    refine ⟨by simp [team_specific_prediction, hm], by simp [team_specific_prediction, hm],
      by simp [team_specific_prediction, hm], by simp [team_specific_prediction, hm], ?_⟩ <;>
    simp only [team_specific_prediction, hm, Option.getD_none, List.isEmpty_nil,
      Bool.true_or, Bool.or_true, if_true] <;>
    rw [if_neg (by linarith), if_neg (by linarith)]

/-- C10 witness: with a store containing only `KC`, the matchup of unknown
`XYZ` at `KC` with a Vegas total of 47 reports model total 47, scores 23.5
each, edge 0 and recommendation `hold`. -/
theorem c10_missing_team_hold_witness :
    (team_specific_prediction [("KC", [("off_epa_per_play", (1:ℚ)/20)])] "XYZ" "KC" 47).model_total = 47 ∧
    (team_specific_prediction [("KC", [("off_epa_per_play", (1:ℚ)/20)])] "XYZ" "KC" 47).edge = 0 ∧
    (team_specific_prediction [("KC", [("off_epa_per_play", (1:ℚ)/20)])] "XYZ" "KC" 47).recommendation = "hold" := by
  have h := c10_missing_team_hold [("KC", [("off_epa_per_play", (1:ℚ)/20)])] "XYZ" "KC" 47
    (Or.inl rfl)
  exact ⟨h.1, h.2.2.2.1, h.2.2.2.2⟩
